import Mathlib

/-!
Verification development for the OLX listing scraper (`app.py`).

The development shallowly embeds the scraper's core pipeline:
`StealthyScraper.fetch_page` (retry/backoff state machine),
`StealthyScraper.parse_listing` (per-field selector cascades),
`StealthyScraper.find_listings` (listing locator with heuristic fallback),
and `StealthyScraper.scrape_search_results` (pagination orchestrator).

HTML documents are modelled as trees of `Node`; BeautifulSoup's
`select_one`, `select`, `find`, `.text` and attribute access are modelled
over those trees.  HTTP, randomness and sleeping are externalised: the
outcome of each HTTP attempt is an input to the model, and every sleep is
recorded as an event in an output trace instead of being performed.
-/

namespace OlxScraper

/-- A parsed HTML node: an element with a tag name, attribute list and
children, or a raw text node.  Mirrors the BeautifulSoup tree that
`app.py` walks. -/
inductive Node where
  | elem (tag : String) (attrs : List (String × String)) (children : List Node)
  | text (s : String)

/-- Python's `str.lower()` (ASCII case folding suffices for the block
phrases the scraper checks). -/
def pyLower (s : String) : String := String.mk (s.toList.map Char.toLower)

/-- Python's `str.strip()`: drop leading and trailing whitespace. -/
def pyStrip (s : String) : String :=
  String.mk
    (((s.toList.dropWhile Char.isWhitespace).reverse.dropWhile
        Char.isWhitespace).reverse)

/-- Python's `str.startswith(p)`. -/
def pyStartsWith (p s : String) : Bool :=
  p.toList.isPrefixOf s.toList

/-- Character-list prefix test, used to model Python's substring operator. -/
def listIsPrefixOf : List Char → List Char → Bool
  | [], _ => true
  | _ :: _, [] => false
  | a :: as, b :: bs => a == b && listIsPrefixOf as bs

/-- Character-list substring test. -/
def listContainsSub (needle : List Char) : List Char → Bool
  | [] => listIsPrefixOf needle []
  | b :: bs => listIsPrefixOf needle (b :: bs) || listContainsSub needle bs

/-- Python's `needle in hay` substring test on strings. -/
def containsSub (needle hay : String) : Bool :=
  listContainsSub needle.toList hay.toList

mutual

/-- All proper descendants of a node in document (preorder) order;
this is the search space of BeautifulSoup's `find`/`select` on a tag. -/
def Node.descendants : Node → List Node
  | .text _ => []
  | .elem _ _ cs => descendantsList cs

/-- Preorder traversal of a forest: each root followed by its descendants. -/
def descendantsList : List Node → List Node
  | [] => []
  | n :: rest => n :: Node.descendants n ++ descendantsList rest

end

mutual

/-- BeautifulSoup's `.text`: concatenation of all text in the subtree. -/
def nodeText : Node → String
  | .text s => s
  | .elem _ _ cs => nodeTextList cs

/-- Concatenated text of a forest. -/
def nodeTextList : List Node → String
  | [] => ""
  | n :: rest => nodeText n ++ nodeTextList rest

end

/-- First value bound to `key` in an attribute list. -/
def attrLookup (attrs : List (String × String)) (key : String) : Option String :=
  (attrs.find? (fun p => p.1 == key)).map (fun p => p.2)

/-- Attribute access on a node (`tag.attrs` / `tag[key]` in BeautifulSoup);
text nodes have no attributes. -/
def Node.getAttr : Node → String → Option String
  | .elem _ attrs _, key => attrLookup attrs key
  | .text _, _ => none

/-- Python's `key in tag.attrs`. -/
def Node.hasAttr (n : Node) (key : String) : Bool := (n.getAttr key).isSome

/-- Whether a node is an element with the given tag name. -/
def Node.tagIs : Node → String → Bool
  | .elem t _ _, t2 => t == t2
  | .text _, _ => false

/-- Whitespace tokenisation of an attribute value, as Python's `str.split()`
with no argument: runs of whitespace separate tokens, empty tokens are
dropped.  `cur` accumulates the current token in reverse. -/
def splitWhitespaceAux (cur : List Char) : List Char → List String
  | [] => if cur.isEmpty then [] else [String.mk cur.reverse]
  | c :: rest =>
    if c.isWhitespace then
      if cur.isEmpty then splitWhitespaceAux [] rest
      else String.mk cur.reverse :: splitWhitespaceAux [] rest
    else splitWhitespaceAux (c :: cur) rest

/-- The whitespace-separated tokens of a node's `class` attribute
(BeautifulSoup treats `class` as multi-valued). -/
def classTokens (n : Node) : List String :=
  match n.getAttr "class" with
  | none => []
  | some v => splitWhitespaceAux [] v.toList

/-- The CSS selector shapes appearing in `app.py`: a bare tag (`h2`),
a tag with a class (`span.price`), or a tag with an exact attribute value
(`span[data-aut-id="itemPrice"]`). -/
inductive Selector where
  | tag (t : String)
  | tagClass (t c : String)
  | tagAttr (t key v : String)
deriving DecidableEq

/-- Whether a node matches a selector. -/
def matchesSel (s : Selector) (n : Node) : Bool :=
  match s with
  | .tag t => n.tagIs t
  | .tagClass t c => n.tagIs t && (classTokens n).contains c
  | .tagAttr t key v => n.tagIs t && n.getAttr key == some v

/-- BeautifulSoup's `tag.select(sel)`: all matching descendants in
document order. -/
def selectAll (root : Node) (s : Selector) : List Node :=
  root.descendants.filter (matchesSel s)

/-- BeautifulSoup's `tag.select_one(sel)`: the first matching descendant. -/
def selectOne (root : Node) (s : Selector) : Option Node :=
  (selectAll root s).head?

/-- BeautifulSoup's `tag.find(name)`: the first descendant element with the
given tag name. -/
def findFirstTag (root : Node) (t : String) : Option Node :=
  (root.descendants.filter (fun n => n.tagIs t)).head?

/-- The sentinel used for unextractable fields. -/
def sentinel : String := "N/A"

/-- `price_selectors` of `parse_listing`. -/
def price_selectors : List Selector :=
  [.tagClass "span" "_2Ks63", .tagClass "span" "olx-price-new",
   .tagAttr "span" "data-aut-id" "itemPrice",
   .tagClass "span" "price", .tagClass "span" "text-price"]

/-- `title_selectors` of `parse_listing`. -/
def title_selectors : List Selector :=
  [.tagClass "span" "_2tW1I", .tagClass "span" "olx-text-color",
   .tagAttr "span" "data-aut-id" "itemTitle",
   .tag "h2", .tagClass "div" "title"]

/-- `loc_selectors` of `parse_listing`. -/
def loc_selectors : List Selector :=
  [.tagClass "span" "tjgMj", .tagClass "span" "olx-location",
   .tagAttr "span" "data-aut-id" "item-location",
   .tagClass "span" "location"]

/-- `date_selectors` of `parse_listing`. -/
def date_selectors : List Selector :=
  [.tagClass "span" "zLvFQ", .tagClass "span" "olx-date",
   .tagAttr "span" "data-aut-id" "item-date",
   .tagClass "span" "date"]

/-- The per-field selector loop of `parse_listing`: try each selector with
`select_one` until one returns an element, and take that element's trimmed
text; if none matches, keep the sentinel. -/
def tryCascade (listing : Node) : List Selector → String
  | [] => sentinel
  | s :: rest =>
    match selectOne listing s with
    | some e => pyStrip (nodeText e)
    | none => tryCascade listing rest

/-- The site origin prepended to relative links. -/
def siteOrigin : String := "https://www.olx.in"

/-- Link extraction in `parse_listing` (lines 134-140): the first anchor
descendant's `href`, made absolute by prefixing the site origin when it
does not start with `"http"`; sentinel when there is no anchor or no
`href` attribute. -/
def extractLink (listing : Node) : String :=
  match findFirstTag listing "a" with
  | none => sentinel
  | some a =>
    match a.getAttr "href" with
    | none => sentinel
    | some h => if pyStartsWith "http" h then h else siteOrigin ++ h

/-- Attribute probing for image extraction in `parse_listing`: take the
first attribute of the list present on the image element. -/
def probeAttrs (n : Node) : List String → String
  | [] => sentinel
  | a :: rest =>
    match n.getAttr a with
    | some v => v
    | none => probeAttrs n rest

/-- Image extraction in `parse_listing` (lines 142-149). -/
def extractImage (listing : Node) : String :=
  match findFirstTag listing "img" with
  | none => sentinel
  | some img => probeAttrs img ["src", "data-src", "srcset"]

/-- `StealthyScraper.parse_listing`: builds the listing record as an ordered
key/value list mirroring the Python dict literal.  The Python `try/except`
returns `None` on an unexpected error; the embedded extraction is total, so
the success branch is always taken. -/
def parse_listing (listing : Node) : Option (List (String × String)) :=
  let price := tryCascade listing price_selectors
  let title := tryCascade listing title_selectors
  let loc := tryCascade listing loc_selectors
  let date_posted := tryCascade listing date_selectors
  let link := extractLink listing
  let image_url := extractImage listing
  some [("title", title), ("price", price), ("location", loc),
        ("date_posted", date_posted), ("link", link), ("image_url", image_url)]

/-- `listing_selectors` of `find_listings`. -/
def listing_selectors : List Selector :=
  [.tagClass "li" "EIR5N", .tagAttr "li" "data-aut-id" "itemBox",
   .tagAttr "div" "data-aut-id" "itemCard",
   .tagClass "div" "IKo3_", .tagClass "li" "listing"]

/-- The selector loop of `find_listings`: return the first selector's
non-empty match set, if any. -/
def firstNonEmptySelect (root : Node) : List Selector → Option (List Node)
  | [] => none
  | s :: rest =>
    let ls := selectAll root s
    if ls.isEmpty then firstNonEmptySelect root rest else some ls

/-- Heading-like tags probed by the heuristic fallback of `find_listings`. -/
def headingTags : List String := ["h2", "h3", "strong", "span"]

/-- `item.find(['h2','h3','strong','span'], class_=True)` is truthy. -/
def hasHeading (item : Node) : Bool :=
  item.descendants.any (fun d =>
    headingTags.any (fun t => d.tagIs t) && d.hasAttr "class")

/-- `item.find(text=lambda t: '₹' in t ...)` is truthy: some text descendant
contains the rupee sign. -/
def hasPrice (item : Node) : Bool :=
  item.descendants.any (fun d =>
    match d with
    | .text t => t.toList.contains '₹'
    | .elem _ _ _ => false)

/-- `item.find('a', href=True)` is truthy. -/
def hasLink (item : Node) : Bool :=
  item.descendants.any (fun d => d.tagIs "a" && d.hasAttr "href")

/-- `soup.find_all(['div','li'], class_=True)` membership: a `div` or `li`
element carrying a `class` attribute. -/
def isPotentialListing (d : Node) : Bool :=
  (d.tagIs "div" || d.tagIs "li") && d.hasAttr "class"

/-- The heuristic fallback filter of `find_listings`: potential containers
that have a heading-like child and either currency-marked text or a link. -/
def heuristicListings (root : Node) : List Node :=
  (root.descendants.filter isPotentialListing).filter
    (fun item => hasHeading item && (hasPrice item || hasLink item))

/-- The selector/heuristic body of `find_listings` applied to the parsed
soup of non-empty page content. -/
def findListingsIn (root : Node) : List Node :=
  match firstNonEmptySelect root listing_selectors with
  | some ls => ls
  | none =>
    let filtered := heuristicListings root
    if filtered.isEmpty then [] else filtered

/-- `StealthyScraper.find_listings`: falsy content (`None` or the empty
string) short-circuits to `[]`; otherwise the content is parsed (the
BeautifulSoup parser is the external collaborator `parse`) and the
selector/heuristic cascade runs on the soup. -/
def find_listings (parse : String → Node) : Option String → List Node
  | none => []
  | some s => if s = "" then [] else findListingsIn (parse s)

/-- An HTTP response as `fetch_page` sees it: a status code and a body. -/
structure HttpResponse where
  status : Nat
  body : String
deriving DecidableEq

/-- The outcome of one HTTP attempt: a response, or a transport-level
exception (`requests.exceptions.RequestException`). -/
inductive AttemptResult where
  | response (resp : HttpResponse)
  | netError
deriving DecidableEq

/-- The block-detection test of `fetch_page` line 59:
`"captcha" in text.lower() or "detected unusual traffic" in text.lower()`. -/
def isBlockedBody (body : String) : Bool :=
  containsSub "captcha" (pyLower body) ||
    containsSub "detected unusual traffic" (pyLower body)

/-- `self.retry_delay` (seconds). -/
def retry_delay : Nat := 30

/-- Lower bound of the randomized pre-request wait `random.uniform(2, 5)`. -/
def requestDelayLo : Nat := 2

/-- Upper bound of the randomized pre-request wait `random.uniform(2, 5)`. -/
def requestDelayHi : Nat := 5

/-- Lower bound of the inter-page pacing wait `random.uniform(10, 20)`. -/
def pageDelayLo : Nat := 10

/-- Upper bound of the inter-page pacing wait `random.uniform(10, 20)`. -/
def pageDelayHi : Nat := 20

/-- Observable events of one `fetch_page` call, in order: the randomized
pre-request wait, the HTTP request itself, the fixed cooldown after a
blocked attempt, the fixed cooldown after a non-200 status, and the
growing backoff after a network error. -/
inductive FetchEvent where
  | preWait (lo hi : Nat)
  | request
  | blockedCooldown (d : Nat)
  | httpCooldown (d : Nat)
  | backoff (d : Nat)
deriving DecidableEq

/-- The `while retries < max_retries` loop of `fetch_page`.  `att k` is the
outcome of the HTTP attempt made when the retry counter equals `k`; the
returned trace records every sleep and request in order. -/
def fetchLoop (att : Nat → AttemptResult) (max_retries : Int) (rd : Nat)
    (retries : Nat) : Option String × List FetchEvent :=
  if _h : (retries : Int) < max_retries then
    match att retries with
    | .netError =>
      if ((retries : Int) + 1) < max_retries then
        let rest := fetchLoop att max_retries rd (retries + 1)
        (rest.1, .preWait requestDelayLo requestDelayHi :: .request ::
          .backoff (rd * (retries + 1)) :: rest.2)
      else
        (none, [.preWait requestDelayLo requestDelayHi, .request])
    | .response resp =>
      if isBlockedBody resp.body then
        let rest := fetchLoop att max_retries rd (retries + 1)
        (rest.1, .preWait requestDelayLo requestDelayHi :: .request ::
          .blockedCooldown rd :: rest.2)
      else if resp.status ≠ 200 then
        let rest := fetchLoop att max_retries rd (retries + 1)
        (rest.1, .preWait requestDelayLo requestDelayHi :: .request ::
          .httpCooldown rd :: rest.2)
      else
        (some resp.body, [.preWait requestDelayLo requestDelayHi, .request])
  else
    (none, [])
termination_by (max_retries - retries).toNat
decreasing_by all_goals (simp_wf; omega)

/-- `StealthyScraper.fetch_page` with its default `max_retries=3` and the
instance's `retry_delay`. -/
def fetch_page (att : Nat → AttemptResult) (max_retries : Int := 3) :
    Option String × List FetchEvent :=
  fetchLoop att max_retries retry_delay 0

/-- `self.base_url`. -/
def base_url : String := "https://www.olx.in/items/q-car-cover"

/-- Page URL construction of `scrape_search_results`: page 1 is the base
URL, later pages append a `page` query parameter. -/
def pageUrl (n : Nat) : String :=
  if n = 1 then base_url else base_url ++ "?page=" ++ toString n

/-- Observable events of `scrape_search_results`, in order: one
`fetch_page` call per visited page, and the randomized inter-page pacing
sleep. -/
inductive PageEvent where
  | fetchPage (url : String)
  | pacing (lo hi : Nat)
deriving DecidableEq

/-- The `while current_page <= max_pages` loop of `scrape_search_results`.
`att url` gives the per-attempt HTTP outcomes that `fetch_page` sees for
that URL; `parse` is the external BeautifulSoup parser.  A falsy fetched
body (absent or empty) logs and `continue`s — skipping the pacing sleep —
while a truthy body is located, parsed listing-by-listing, and followed by
the pacing sleep unless the page was the last. -/
def scrapeLoop (att : String → Nat → AttemptResult) (parse : String → Node)
    (max_pages : Nat) (current_page : Nat) :
    List (List (String × String)) × List PageEvent :=
  if _h : current_page ≤ max_pages then
    let page_url := pageUrl current_page
    match (fetch_page (att page_url)).1 with
    | none =>
      let rest := scrapeLoop att parse max_pages (current_page + 1)
      (rest.1, .fetchPage page_url :: rest.2)
    | some s =>
      if s = "" then
        let rest := scrapeLoop att parse max_pages (current_page + 1)
        (rest.1, .fetchPage page_url :: rest.2)
      else
        let page_results := (findListingsIn (parse s)).filterMap parse_listing
        let rest := scrapeLoop att parse max_pages (current_page + 1)
        (page_results ++ rest.1,
         .fetchPage page_url ::
           (if current_page + 1 ≤ max_pages then
              [PageEvent.pacing pageDelayLo pageDelayHi]
            else []) ++ rest.2)
  else ([], [])
termination_by max_pages + 1 - current_page

/-- `StealthyScraper.scrape_search_results` (default `max_pages=1`). -/
def scrape_search_results (att : String → Nat → AttemptResult)
    (parse : String → Node) (max_pages : Nat := 1) :
    List (List (String × String)) × List PageEvent :=
  scrapeLoop att parse max_pages 1

/-- Whether a fetch event is the HTTP request itself. -/
def isRequestEvent : FetchEvent → Bool
  | .request => true
  | _ => false

/-- The duration of a network-error backoff sleep, if the event is one. -/
def backoffDuration : FetchEvent → Option Nat
  | .backoff d => some d
  | _ => none

/-- The URL of a page-level fetch event, if the event is one. -/
def fetchUrl : PageEvent → Option String
  | .fetchPage u => some u
  | _ => none

/-- Whether a page event is the inter-page pacing sleep. -/
def isPacingEvent : PageEvent → Bool
  | .pacing _ _ => true
  | _ => false

/-- Specification of one text-field value of a listing record: either the
sentinel, or the trimmed text of the node found by some selector of the
field's cascade. -/
def cascadeOk (listing : Node) (sels : List Selector) (v : String) : Prop :=
  v = sentinel ∨ ∃ s ∈ sels, ∃ nd, selectOne listing s = some nd ∧
    v = pyStrip (nodeText nd)

/-- Per-page contribution to the orchestrator's result sequence: nothing
for an absent or empty fetched body, otherwise the parsed records of the
located listing elements. -/
def pageResults (att : String → Nat → AttemptResult) (parse : String → Node)
    (p : Nat) : List (List (String × String)) :=
  match (fetch_page (att (pageUrl p))).1 with
  | none => []
  | some s =>
    if s = "" then [] else (findListingsIn (parse s)).filterMap parse_listing

/-- Per-page contribution to the orchestrator's event trace: the
`fetch_page` call, followed by the pacing sleep exactly when the fetched
body was truthy and the page was not the last. -/
def pageTrace (att : String → Nat → AttemptResult) (max_pages p : Nat) :
    List PageEvent :=
  PageEvent.fetchPage (pageUrl p) ::
    (match (fetch_page (att (pageUrl p))).1 with
     | none => []
     | some s =>
       if s = "" then []
       else if p + 1 ≤ max_pages then
         [PageEvent.pacing pageDelayLo pageDelayHi]
       else [])

/-- Fixture: a listing element whose only cascade hit is an `h2` with no
text, so the extracted title is the empty string. -/
def emptyTitleListing : Node := .elem "li" [] [.elem "h2" [] []]

/-- Fixture: a listing element with a relative anchor target. -/
def demoAnchorListing : Node :=
  .elem "li" [] [.elem "a" [("href", "/item/123")] [.text "x"]]

/-- Fixture: a listing element matching both the `h2` and the `div.title`
entries of the title cascade. -/
def demoCascadeListing : Node :=
  .elem "li" []
    [.elem "h2" [] [.text "Hello"],
     .elem "div" [("class", "title")] [.text "Bye"]]

/-- Fixture: a page with no recognizable listing structure. -/
def demoBareRoot : Node := .elem "html" [] [.elem "p" [] [.text "hello"]]

/-- Fixture: attempts that always fail at the transport level. -/
def attNet : Nat → AttemptResult := fun _ => .netError

/-- Fixture: attempts that always return HTTP 500. -/
def att500 : Nat → AttemptResult := fun _ => .response ⟨500, "Server Error"⟩

/-- Fixture: attempts whose body contains "unusual traffic" but not the
indicator the code actually checks. -/
def unusualTrafficAtt : Nat → AttemptResult :=
  fun _ => .response ⟨200, "Unusual Traffic on this page"⟩

/-- Fixture: attempts whose body contains the scraper's actual block
indicator. -/
def detectedAtt : Nat → AttemptResult :=
  fun _ => .response ⟨200, "We Detected Unusual Traffic from your network"⟩

/-- Fixture: a per-URL attempt source that always fails at the transport
level, for the orchestrator. -/
def attNetAll : String → Nat → AttemptResult := fun _ _ => .netError

/-- Fixture: a trivial external parser. -/
def parseTriv : String → Node := fun s => Node.text s

/-- If every known listing selector matches nothing, the selector loop of
`find_listings` falls through. -/
lemma firstNonEmptySelect_eq_none (root : Node) :
    ∀ sels : List Selector, (∀ s ∈ sels, (selectAll root s).isEmpty = true) →
      firstNonEmptySelect root sels = none := by
  intro sels
  induction sels with
  | nil => intro _; rfl
  | cons s rest ih =>
    intro h
    have hs := h s (List.mem_cons_self s rest)
    have hr := ih (fun x hx => h x (List.mem_cons_of_mem s hx))
    simp [firstNonEmptySelect, hs, hr]

/-- C9: `find_listings` on absent (`None`) or empty page content returns
the empty sequence for every possible HTML parser, so neither parsing nor
selector evaluation can influence the outcome — locating listings is total
over missing page bodies. -/
theorem find_listings_falsy_content (parse : String → Node) :
    find_listings parse none = [] ∧ find_listings parse (some "") = [] :=
  ⟨rfl, by simp [find_listings]⟩

/-- C10: `fetch_page` with a non-positive retry budget returns an absent
body at once — the loop body never runs, so no request event and no sleep
event is emitted. -/
theorem fetch_page_nonpositive_budget (att : Nat → AttemptResult)
    (m : Int) (hm : m ≤ 0) : fetch_page att m = (none, []) := by
  have h : ¬ (((0 : Nat) : Int) < m) := by omega
  unfold fetch_page fetchLoop
  simp only [h, dite_false, dif_neg]

/-- Witness for `fetch_page_nonpositive_budget` at a zero retry budget. -/
theorem fetch_page_nonpositive_budget_witness :
    (0 : Int) ≤ 0 ∧ fetch_page attNet 0 = (none, []) :=
  ⟨le_refl 0, fetch_page_nonpositive_budget attNet 0 (le_refl 0)⟩

/-- C5: when every known listing selector matches nothing, `find_listings`
returns exactly the containers accepted by the heuristic (a `div`/`li`
with a class attribute, a heading-like classed child, and currency-marked
text or a link), and when the heuristic also accepts nothing the result is
the empty sequence — a normal outcome, not an error. -/
theorem find_listings_heuristic_fallback (root : Node)
    (hsel : ∀ s ∈ listing_selectors, (selectAll root s).isEmpty = true) :
    findListingsIn root = heuristicListings root ∧
      (heuristicListings root = [] → findListingsIn root = []) := by
  have h := firstNonEmptySelect_eq_none root listing_selectors hsel
  constructor
  · unfold findListingsIn
    rw [h]
    by_cases he : (heuristicListings root).isEmpty = true
    · simp only [he, if_true]
      exact (List.isEmpty_iff.mp he).symm
    · simp [he]
  · intro he
    unfold findListingsIn
    rw [h]
    simp [he]

/-- Witness for `find_listings_heuristic_fallback` on markup with no
recognizable listing structure. -/
theorem find_listings_heuristic_fallback_witness :
    findListingsIn demoBareRoot = [] :=
  (find_listings_heuristic_fallback demoBareRoot (by decide)).2 rfl

/-- C6: link extraction rewrites a relative `href` (one not starting with
`"http"`) by prefixing the site origin, passes an absolute `href` through
unchanged, and yields the sentinel when the listing has no anchor
descendant. -/
theorem link_extraction_resolves (listing : Node) :
    (findFirstTag listing "a" = none → extractLink listing = sentinel) ∧
    (∀ a h, findFirstTag listing "a" = some a → a.getAttr "href" = some h →
      (pyStartsWith "http" h = false → extractLink listing = siteOrigin ++ h) ∧
      (pyStartsWith "http" h = true → extractLink listing = h)) := by
  constructor
  · intro hn
    unfold extractLink
    rw [hn]
  · intro a h ha hh
    constructor <;> intro hs <;> simp [extractLink, ha, hh, hs]

/-- Witness for `link_extraction_resolves`: the relative target
`"/item/123"` becomes `"https://www.olx.in/item/123"`. -/
theorem link_extraction_resolves_witness :
    extractLink demoAnchorListing = "https://www.olx.in/item/123" := by
  have h := ((link_extraction_resolves demoAnchorListing).2
      (Node.elem "a" [("href", "/item/123")] [Node.text "x"]) "/item/123"
      rfl rfl).1 (by decide)
  exact h.trans (by decide)

/-- C4: the per-field cascades have first-match-wins semantics.  If every
selector before `s` misses, `s` matches node `n`, and a later selector
`s2` also matches (node `n2`), then the field value is the trimmed text of
`n`, and the cascade result coincides with the cascade cut off right after
`s` — the later selectors are never consulted. -/
theorem cascade_first_match_wins (listing : Node)
    (pre mid post : List Selector) (s s2 : Selector) (n n2 : Node)
    (hpre : ∀ x ∈ pre, selectOne listing x = none)
    (hs : selectOne listing s = some n)
    (_hs2 : selectOne listing s2 = some n2) :
    tryCascade listing (pre ++ s :: mid ++ s2 :: post) =
      pyStrip (nodeText n) ∧
    tryCascade listing (pre ++ s :: mid ++ s2 :: post) =
      tryCascade listing (pre ++ [s]) := by
  induction pre with
  | nil => simp [tryCascade, hs]
  | cons x rest ih =>
    have hx := hpre x (List.mem_cons_self x rest)
    have hrec := ih (fun y hy => hpre y (List.mem_cons_of_mem x hy))
    simpa [tryCascade, hx] using hrec

/-- Witness for `cascade_first_match_wins`: a listing matching both the
`h2` and the later `div.title` entry of the title cascade extracts the
`h2` text. -/
theorem cascade_first_match_wins_witness :
    tryCascade demoCascadeListing title_selectors = "Hello" := by
  have heq : title_selectors =
      [Selector.tagClass "span" "_2tW1I", .tagClass "span" "olx-text-color",
       .tagAttr "span" "data-aut-id" "itemTitle"] ++
        Selector.tag "h2" :: [] ++ Selector.tagClass "div" "title" :: [] := by
    decide
  have h := (cascade_first_match_wins demoCascadeListing
      [Selector.tagClass "span" "_2tW1I", .tagClass "span" "olx-text-color",
       .tagAttr "span" "data-aut-id" "itemTitle"] [] []
      (.tag "h2") (.tagClass "div" "title")
      (Node.elem "h2" [] [Node.text "Hello"])
      (Node.elem "div" [("class", "title")] [Node.text "Bye"])
      (by intro x hx; fin_cases hx <;> rfl) rfl rfl).1
  rw [heq]
  exact h.trans (by decide)

/-- Every cascade result is either the sentinel or the trimmed text of the
node matched by one of the cascade's selectors. -/
lemma tryCascade_ok (listing : Node) :
    ∀ sels : List Selector, cascadeOk listing sels (tryCascade listing sels) := by
  intro sels
  induction sels with
  | nil => left; rfl
  | cons s rest ih =>
    cases hs : selectOne listing s with
    | some nd =>
      right
      exact ⟨s, List.mem_cons_self s rest, nd, hs, by simp [tryCascade, hs]⟩
    | none =>
      have heq : tryCascade listing (s :: rest) = tryCascade listing rest := by
        simp [tryCascade, hs]
      rw [heq]
      rcases ih with h1 | ⟨s2, hs2, nd, hnd, hv⟩
      · left; exact h1
      · right; exact ⟨s2, List.mem_cons_of_mem s hs2, nd, hnd, hv⟩

/-- C1 (amended): every record `parse_listing` produces carries exactly the
six keys `title`, `price`, `location`, `date_posted`, `link`, `image_url`,
in declaration order, with each text field either the sentinel or the
trimmed text of the node found by its cascade — an extracted value may be
the empty string, which is how the original claim fails. -/
theorem parse_listing_record_shape (listing : Node) :
    ∃ t p l d lk im,
      parse_listing listing =
        some [("title", t), ("price", p), ("location", l),
              ("date_posted", d), ("link", lk), ("image_url", im)] ∧
      cascadeOk listing title_selectors t ∧
      cascadeOk listing price_selectors p ∧
      cascadeOk listing loc_selectors l ∧
      cascadeOk listing date_selectors d :=
  ⟨_, _, _, _, _, _, rfl,
    tryCascade_ok listing title_selectors,
    tryCascade_ok listing price_selectors,
    tryCascade_ok listing loc_selectors,
    tryCascade_ok listing date_selectors⟩

/-- Counterexample to C1 as stated: a listing whose `h2` carries no text
yields a record whose `title` field is the empty string — present, but
neither a non-empty extracted string nor the sentinel `"N/A"`. -/
theorem parse_listing_empty_field_cex :
    parse_listing emptyTitleListing =
      some [("title", ""), ("price", "N/A"), ("location", "N/A"),
            ("date_posted", "N/A"), ("link", "N/A"), ("image_url", "N/A")] ∧
    ¬ (("" : String) ≠ "" ∨ ("" : String) = "N/A") :=
  ⟨by decide, by decide⟩

/-- When every attempt is classified as blocked, the loop performs one
attempt per remaining retry, each followed by the fixed cooldown, and
returns an absent body. -/
lemma fetchLoop_persistent_blocked (att : Nat → AttemptResult) (rd : Nat)
    (hB : ∀ k, ∃ resp, att k = .response resp ∧ isBlockedBody resp.body = true)
    (m : Nat) :
    ∀ t r, m - r = t →
      fetchLoop att (m : Int) rd r =
        (none,
         (List.replicate t
            [FetchEvent.preWait requestDelayLo requestDelayHi,
             FetchEvent.request, FetchEvent.blockedCooldown rd]).flatten) := by
  intro t
  induction t with
  | zero =>
    intro r hr
    have h : ¬ ((r : Int) < (m : Int)) := by omega
    unfold fetchLoop
    simp [h]
  | succ t ih =>
    intro r hr
    have hlt : (r : Int) < (m : Int) := by omega
    obtain ⟨resp, hat, hb⟩ := hB r
    have hrec := ih (r + 1) (by omega)
    unfold fetchLoop
    rw [dif_pos hlt, hat]
    simp [hb, hrec, List.replicate_succ]

/-- Length of a filtered flattening of a replicated chunk. -/
lemma filter_length_flatten_replicate {α : Type} (p : α → Bool) (l : List α) :
    ∀ m : Nat, (((List.replicate m l).flatten).filter p).length =
      m * (l.filter p).length := by
  intro m
  induction m with
  | zero => simp
  | succ k ih =>
    simp [List.replicate_succ, List.filter_append, ih, Nat.succ_mul,
      Nat.add_comm]

/-- C3 (amended): when every attempt's body contains the code's actual
block indicator `"detected unusual traffic"` (case-insensitively), every
attempt takes the blocked branch, the call returns an absent body after
exactly `maxRetries` attempts, and each attempt is followed by the fixed
`retry_delay` cooldown. -/
theorem fetch_blocked_exhausts (att : Nat → AttemptResult) (m : Nat)
    (hB : ∀ k, ∃ resp, att k = .response resp ∧
      containsSub "detected unusual traffic" (pyLower resp.body) = true) :
    (fetch_page att (m : Int)).1 = none ∧
    ((fetch_page att (m : Int)).2.filter isRequestEvent).length = m ∧
    (fetch_page att (m : Int)).2 =
      (List.replicate m
        [FetchEvent.preWait requestDelayLo requestDelayHi,
         FetchEvent.request, FetchEvent.blockedCooldown retry_delay]).flatten := by
  have hB2 : ∀ k, ∃ resp, att k = .response resp ∧
      isBlockedBody resp.body = true := by
    intro k
    obtain ⟨resp, h1, h2⟩ := hB k
    exact ⟨resp, h1, by simp [isBlockedBody, h2]⟩
  have h := fetchLoop_persistent_blocked att retry_delay hB2 m m 0 rfl
  unfold fetch_page
  rw [h]
  refine ⟨rfl, ?_, rfl⟩
  rw [filter_length_flatten_replicate]
  simp [isRequestEvent]

/-- Witness for `fetch_blocked_exhausts` with three persistently blocked
attempts. -/
theorem fetch_blocked_exhausts_witness :
    (fetch_page detectedAtt ((3 : Nat) : Int)).1 = none ∧
    ((fetch_page detectedAtt ((3 : Nat) : Int)).2.filter
      isRequestEvent).length = 3 ∧
    (fetch_page detectedAtt ((3 : Nat) : Int)).2 =
      (List.replicate 3
        [FetchEvent.preWait requestDelayLo requestDelayHi,
         FetchEvent.request, FetchEvent.blockedCooldown retry_delay]).flatten :=
  fetch_blocked_exhausts detectedAtt 3
    (fun _ => ⟨⟨200, "We Detected Unusual Traffic from your network"⟩, rfl,
      by decide⟩)

/-- Counterexample to C3 as stated: a body containing the phrase
"unusual traffic" (case-insensitively) but not the code's indicator
"detected unusual traffic" is not classified as blocked — with status 200
the very first attempt succeeds and the body is returned, not absent. -/
theorem fetch_unusual_traffic_cex :
    containsSub "unusual traffic"
      (pyLower "Unusual Traffic on this page") = true ∧
    (fetch_page unusualTrafficAtt 3).1 = some "Unusual Traffic on this page" := by
  constructor
  · decide
  · simp +decide [fetch_page, fetchLoop, unusualTrafficAtt]

/-- When every attempt gets a non-200 response, the loop performs one
attempt per remaining retry and returns an absent body. -/
lemma fetchLoop_persistent_non200 (att : Nat → AttemptResult) (rd : Nat)
    (hA : ∀ k, ∃ resp, att k = .response resp ∧ resp.status ≠ 200) (m : Nat) :
    ∀ t r, m - r = t →
      (fetchLoop att (m : Int) rd r).1 = none ∧
      ((fetchLoop att (m : Int) rd r).2.filter isRequestEvent).length = t := by
  intro t
  induction t with
  | zero =>
    intro r hr
    have h : ¬ ((r : Int) < (m : Int)) := by omega
    unfold fetchLoop
    simp [h]
  | succ t ih =>
    intro r hr
    have hlt : (r : Int) < (m : Int) := by omega
    obtain ⟨resp, hat, hst⟩ := hA r
    obtain ⟨ih1, ih2⟩ := ih (r + 1) (by omega)
    unfold fetchLoop
    rw [dif_pos hlt, hat]
    by_cases hb : isBlockedBody resp.body = true
    · simp [hb, ih1, ih2, isRequestEvent]
    · simp [hb, hst, ih1, ih2, isRequestEvent]

/-- When every attempt raises a transport error, the loop performs one
attempt per remaining retry, returns an absent body, and sleeps the
backoff `rd * k` after the `k`-th failed attempt for every attempt but the
last. -/
lemma fetchLoop_persistent_net (att : Nat → AttemptResult) (rd : Nat)
    (hE : ∀ k, att k = .netError) (m : Nat) :
    ∀ t r, m - r = t →
      (fetchLoop att (m : Int) rd r).1 = none ∧
      ((fetchLoop att (m : Int) rd r).2.filter isRequestEvent).length = t ∧
      (fetchLoop att (m : Int) rd r).2.filterMap backoffDuration =
        (List.range' (r + 1) (t - 1)).map (fun k => rd * k) := by
  intro t
  induction t with
  | zero =>
    intro r hr
    have h : ¬ ((r : Int) < (m : Int)) := by omega
    unfold fetchLoop
    simp [h]
  | succ t ih =>
    intro r hr
    have hlt : (r : Int) < (m : Int) := by omega
    unfold fetchLoop
    rw [dif_pos hlt, hE r]
    cases t with
    | zero =>
      have h2 : ¬ (((r : Int) + 1) < (m : Int)) := by omega
      simp [h2, isRequestEvent, backoffDuration]
    | succ t2 =>
      have h2 : ((r : Int) + 1) < (m : Int) := by omega
      obtain ⟨ih1, ih2, ih3⟩ := ih (r + 1) (by omega)
      simp [h2, ih1, ih2, ih3, isRequestEvent, backoffDuration,
        List.range'_succ]

/-- C2: on persistently non-200 responses `fetch_page`'s loop returns an
absent result after exactly `maxRetries` HTTP attempts; on persistent
transport errors the backoff slept before attempt `k+1` is
`retry_delay * k`, so the successive backoff sleeps are exactly
`rd*1, …, rd*(maxRetries-1)` and strictly increasing. -/
theorem fetch_retry_bound_and_linear_backoff
    (att attE : Nat → AttemptResult) (m rd : Nat) (_hm : 1 ≤ m) (hrd : 0 < rd)
    (hA : ∀ k, ∃ resp, att k = .response resp ∧ resp.status ≠ 200)
    (hE : ∀ k, attE k = .netError) :
    (fetchLoop att (m : Int) rd 0).1 = none ∧
    ((fetchLoop att (m : Int) rd 0).2.filter isRequestEvent).length = m ∧
    (fetchLoop attE (m : Int) rd 0).2.filterMap backoffDuration =
      (List.range' 1 (m - 1)).map (fun k => rd * k) ∧
    List.Pairwise (· < ·)
      ((fetchLoop attE (m : Int) rd 0).2.filterMap backoffDuration) := by
  obtain ⟨h1, h2⟩ := fetchLoop_persistent_non200 att rd hA m m 0 rfl
  obtain ⟨e1, e2, e3⟩ := fetchLoop_persistent_net attE rd hE m m 0 rfl
  simp only [Nat.zero_add] at e3
  refine ⟨h1, h2, e3, ?_⟩
  rw [e3, List.pairwise_map]
  exact (List.pairwise_lt_range' 1 (m - 1)).imp
    (fun hab => (mul_lt_mul_left hrd).mpr hab)

/-- Witness for `fetch_retry_bound_and_linear_backoff` at three retries
and the scraper's `retry_delay` of 30. -/
theorem fetch_retry_bound_and_linear_backoff_witness :
    (1 ≤ 3 ∧ (0 : Nat) < 30) ∧
    (fetchLoop att500 ((3 : Nat) : Int) 30 0).1 = none ∧
    ((fetchLoop att500 ((3 : Nat) : Int) 30 0).2.filter
      isRequestEvent).length = 3 ∧
    (fetchLoop attNet ((3 : Nat) : Int) 30 0).2.filterMap backoffDuration =
      (List.range' 1 (3 - 1)).map (fun k => 30 * k) ∧
    List.Pairwise (· < ·)
      ((fetchLoop attNet ((3 : Nat) : Int) 30 0).2.filterMap
        backoffDuration) :=
  ⟨⟨by decide, by decide⟩,
   fetch_retry_bound_and_linear_backoff att500 attNet 3 30 (by decide)
     (by decide) (fun _ => ⟨⟨500, "Server Error"⟩, rfl, by decide⟩)
     (fun _ => rfl)⟩

/-- Closed form of the orchestrator loop: the results and the event trace
are the page-wise concatenations of `pageResults` and `pageTrace` over the
remaining page indices. -/
lemma scrapeLoop_closed (att : String → Nat → AttemptResult)
    (parse : String → Node) (m : Nat) :
    ∀ t c, m + 1 - c = t →
      scrapeLoop att parse m c =
        ((List.range' c t).flatMap (pageResults att parse),
         (List.range' c t).flatMap (pageTrace att m)) := by
  intro t
  induction t with
  | zero =>
    intro c hc
    have h : ¬ (c ≤ m) := by omega
    unfold scrapeLoop
    simp [h]
  | succ t ih =>
    intro c hc
    have hle : c ≤ m := by omega
    have ihc := ih (c + 1) (by omega)
    unfold scrapeLoop
    rw [dif_pos hle, ihc, List.range'_succ, List.flatMap_cons,
      List.flatMap_cons]
    cases hf : (fetch_page (att (pageUrl c))).1 with
    | none => simp [pageResults, pageTrace, hf]
    | some s =>
      by_cases hs : s = ""
      · simp [pageResults, pageTrace, hf, hs]
      · simp [pageResults, pageTrace, hf, hs]

/-- Each page contributes exactly one fetch event to the trace. -/
lemma pageTrace_filterMap_fetchUrl (att : String → Nat → AttemptResult)
    (m p : Nat) : (pageTrace att m p).filterMap fetchUrl = [pageUrl p] := by
  unfold pageTrace
  cases hf : (fetch_page (att (pageUrl p))).1 with
  | none => simp [fetchUrl]
  | some s =>
    by_cases hs : s = ""
    · simp [fetchUrl, hs]
    · by_cases hp : p + 1 ≤ m <;> simp [fetchUrl, hs, hp, isPacingEvent]

/-- C7: `scrape_search_results` over `n ≥ 1` pages issues exactly one
`fetch_page` call per page index `1..n` — page 1 at the base URL, later
pages with the appended `page` query parameter — and returns the
concatenation of the per-page successful extractions, with a failed
(absent) page contributing nothing and aborting nothing. -/
theorem scrape_accumulates_per_page (att : String → Nat → AttemptResult)
    (parse : String → Node) (n : Nat) :
    (scrape_search_results att parse n).1 =
      (List.range' 1 n).flatMap (pageResults att parse) ∧
    (scrape_search_results att parse n).2.filterMap fetchUrl =
      (List.range' 1 n).map pageUrl ∧
    pageUrl 1 = base_url ∧
    (∀ p, 2 ≤ p → pageUrl p = base_url ++ "?page=" ++ toString p) := by
  have h := scrapeLoop_closed att parse n n 1 rfl
  refine ⟨congrArg Prod.fst h, ?_, rfl, ?_⟩
  · show (scrapeLoop att parse n 1).2.filterMap fetchUrl =
      (List.range' 1 n).map pageUrl
    rw [congrArg Prod.snd h]
    show ((List.range' 1 n).flatMap (pageTrace att n)).filterMap fetchUrl =
      (List.range' 1 n).map pageUrl
    induction (List.range' 1 n) with
    | nil => rfl
    | cons p rest ihr =>
      rw [List.flatMap_cons, List.filterMap_append,
        pageTrace_filterMap_fetchUrl, List.map_cons, ihr]
      rfl
  · intro p hp
    have : p ≠ 1 := by omega
    simp [pageUrl, this]

/-- Witness for `scrape_accumulates_per_page`: two pages whose fetches all
fail at the transport level yield no records, and page 2's URL carries the
query parameter. -/
theorem scrape_accumulates_per_page_witness :
    (scrape_search_results attNetAll parseTriv 2).1 =
      (List.range' 1 2).flatMap (pageResults attNetAll parseTriv) ∧
    (2 : Nat) ≤ 2 ∧
    pageUrl 2 = "https://www.olx.in/items/q-car-cover?page=2" := by
  refine ⟨(scrape_accumulates_per_page attNetAll parseTriv 2).1, by decide, ?_⟩
  have h := (scrape_accumulates_per_page attNetAll parseTriv 2).2.2.2 2
    (by decide)
  exact h.trans (by decide)

/-- C8 (amended): the orchestrator's trace is exactly, page by page, the
fetch call followed by a `pacing` sleep drawn from
`(pageDelayLo, pageDelayHi)` when — and only when — the fetched body was
truthy and the page is not the last; and the pacing range's minimum
strictly exceeds the per-request pre-fetch delay range's maximum.  In
particular no pacing sleep follows the last page or a failed page fetch. -/
theorem pacing_after_successful_nonfinal_pages
    (att : String → Nat → AttemptResult) (parse : String → Node) (n : Nat) :
    (scrape_search_results att parse n).2 =
      (List.range' 1 n).flatMap (pageTrace att n) ∧
    requestDelayHi < pageDelayLo :=
  ⟨congrArg Prod.snd (scrapeLoop_closed att parse n n 1 rfl), by decide⟩

/-- Counterexample to C8 as stated: with two page iterations whose first
fetch fails, the `continue` skips the pacing sleep, so no pacing delay at
all is slept between the two consecutive page iterations. -/
theorem pacing_skipped_on_failed_page_cex :
    (scrape_search_results attNetAll parseTriv 2).2 =
      [PageEvent.fetchPage (pageUrl 1), PageEvent.fetchPage (pageUrl 2)] ∧
    ((scrape_search_results attNetAll parseTriv 2).2.filter
      isPacingEvent).length ≠ 2 - 1 := by
  have h : (scrape_search_results attNetAll parseTriv 2).2 =
      [PageEvent.fetchPage (pageUrl 1), PageEvent.fetchPage (pageUrl 2)] := by
    simp +decide [scrape_search_results, scrapeLoop, fetch_page, fetchLoop,
      attNetAll]
  refine ⟨h, ?_⟩
  rw [h]
  decide

end OlxScraper
